import Mathlib

/-!
Verification of the Flow-Gard water-meter firmware core
(`src/IntegratedWaterMeterIoTSystem/src/main.c`) against its design
specification.  The C functions are shallowly embedded as executable Lean
definitions: machine integers become `Nat` (the C code never relies on
overflow in the fragments modelled here; bytes are values `< 256`), byte
buffers become `List Nat`, and the global mutable meter record becomes an
explicit `MeterData` value threaded through the functions.  Bytes read past
the end of a received buffer (in-bounds but uninitialised stack memory in C)
are modelled as `0` via `List.getD`.
-/

set_option maxRecDepth 4096

namespace FlowGard

/-- Validation failure causes for a received Modbus response frame, one per
early-return branch of `read_meter_data` (the address/function check is a
single `if` in the C code; it is split here in source order: address byte
first, function byte second). -/
inductive FrameError where
  | tooShort
  | crcMismatch
  | addrMismatch
  | funcMismatch
deriving DecidableEq

/-- One bit-iteration of the Modbus CRC inner loop
(`crc = (crc & 0x0001) ? ((crc >> 1) ^ 0xA001) : (crc >> 1)`). -/
def crcBit (crc : Nat) : Nat :=
  if crc &&& 1 = 1 then (crc >>> 1) ^^^ 0xA001 else crc >>> 1

/-- `n` bit-iterations of the CRC inner loop. -/
def crcBits : Nat → Nat → Nat
  | 0, crc => crc
  | n + 1, crc => crcBits n (crcBit crc)

/-- `modbus_crc16` from main.c: initial value 0xFFFF, xor the next data byte
into the register, then run 8 bit-iterations; repeat over all bytes. -/
def modbus_crc16 (data : List Nat) : Nat :=
  data.foldl (fun crc b => crcBits 8 (crc ^^^ b)) 0xFFFF

/-- The CRC described by the spec's own words (§4.1): initial value 0xFFFF,
reflected polynomial 0xA001, one bit-iteration per input bit so 8 iterations
per byte, expressed with `Function.iterate` for the per-byte repetition. -/
def specCrc16 (bytes : List Nat) : Nat :=
  bytes.foldl (fun crc b => crcBit^[8] (crc ^^^ b)) 0xFFFF

/-- `build_read_cmd` from main.c: 8-byte read-holding-registers request
(slave id, function 0x03, start register 1, quantity 38 = 0x26, CRC over the
first six bytes appended low byte first). -/
def build_read_cmd (id : Nat) : List Nat :=
  let base := [id, 0x03, 0x00, 0x01, 0x00, 0x26]
  let crc := modbus_crc16 base
  base ++ [crc &&& 0xFF, (crc >>> 8) &&& 0xFF]

/-- The CRC trailer as read by `read_meter_data`:
`rx_buf[rx_len-2] | (rx_buf[rx_len-1] << 8)` (low byte first). -/
def recvCrc (rx : List Nat) : Nat :=
  rx.getD (rx.length - 2) 0 ||| (rx.getD (rx.length - 1) 0 <<< 8)

/-- The response-validation prefix of `read_meter_data` (main.c lines
226-247): reject frames shorter than 70 bytes, then frames whose CRC trailer
does not match `modbus_crc16` of the preceding bytes, then frames whose
first byte is not the expected slave address or whose second byte is not
function code 0x03; on success the payload starts at byte 3 (`&rx_buf[3]`). -/
def validate_response (rx : List Nat) (expectedAddr : Nat) :
    Except FrameError (List Nat) :=
  if rx.length < 70 then .error .tooShort
  else if recvCrc rx ≠ modbus_crc16 (rx.take (rx.length - 2)) then
    .error .crcMismatch
  else if rx.getD 0 0 ≠ expectedAddr then .error .addrMismatch
  else if rx.getD 1 0 ≠ 0x03 then .error .funcMismatch
  else .ok (rx.drop 3)

/-- `read_u32` from main.c: low 16 bits from the register pair's first
big-endian word, high 16 bits from its second word. -/
def read_u32 (d : List Nat) (offset : Nat) : Nat :=
  let low := (d.getD offset 0 <<< 8) ||| d.getD (offset + 1) 0
  let high := (d.getD (offset + 2) 0 <<< 8) ||| d.getD (offset + 3) 0
  (high <<< 16) ||| low

/-- The decoded meter snapshot (`meter_data_t` in main.c). -/
structure MeterData where
  flow_rate : Nat
  forward_total : Nat
  reverse_total : Nat
  pressure : Nat
  temperature : Nat
  status : Nat
  serial_number : Nat
  modbus_id : Nat
  baud_code : Nat
  valid : Bool
deriving DecidableEq

/-- The register-decoding tail of `read_meter_data` (main.c lines 250-262),
acting on the post-header payload `d = &rx_buf[3]`.  Note the serial number
is assembled as a plain big-endian 32-bit value, not through `read_u32`. -/
def decodePayload (d : List Nat) : MeterData :=
  { flow_rate := read_u32 d 0
    forward_total := read_u32 d 12
    reverse_total := read_u32 d 18
    pressure := (d.getD 36 0 <<< 8) ||| d.getD 37 0
    temperature := (d.getD 58 0 <<< 8) ||| d.getD 59 0
    status := (d.getD 38 0 <<< 8) ||| d.getD 39 0
    serial_number :=
      (d.getD 64 0 <<< 24) ||| (d.getD 65 0 <<< 16) |||
        (d.getD 66 0 <<< 8) ||| d.getD 67 0
    modbus_id := d.getD 69 0
    baud_code := (d.getD 72 0 <<< 8) ||| d.getD 73 0
    valid := true }

/-- Effect of the validation+decode part of `read_meter_data` on the global
`meter_data` record: every failing validation branch sets only
`meter_data.valid = false` and returns -1; the success branch overwrites the
whole record from the payload and returns 0. -/
def read_meter_data_post (rx : List Nat) (old : MeterData) : MeterData × Int :=
  match validate_response rx 1 with
  | .error _ => ({ old with valid := false }, -1)
  | .ok payload => (decodePayload payload, 0)

/-- Spec-side helper: the big-endian 16-bit register word at byte offset `i`
of the payload. -/
def word16 (d : List Nat) (i : Nat) : Nat :=
  (d.getD i 0 <<< 8) ||| d.getD (i + 1) 0

/-- The 32-bit combination claimed by the spec sentence "combined as
`(high_word << 16) | low_word` — i.e., the register pair's *second* word
holds the lower 16 bits": first word high, second word low. -/
def claimedU32 (d : List Nat) (offset : Nat) : Nat :=
  (word16 d offset <<< 16) ||| word16 d (offset + 2)

/-- A sample fully-populated reading, used to instantiate theorems about the
state-preserving failure path. -/
def sampleMeter : MeterData :=
  { flow_rate := 1, forward_total := 2, reverse_total := 3, pressure := 4,
    temperature := 5, status := 6, serial_number := 7, modbus_id := 8,
    baud_code := 9, valid := true }

/-- Publish failure causes of `send_telemetry`: `-ENOTCONN` when the MQTT
readiness gate is down, `-EINVAL` when the current reading is invalid. -/
inductive PubError where
  | notConnected
  | invalidData
deriving DecidableEq

/-- `(meter_data.status & 0x0004) ? 1 : 0` as printed into the `leak`
telemetry field. -/
def leakFlag (status : Nat) : Nat := if status &&& 0x0004 ≠ 0 then 1 else 0

/-- `(meter_data.status & 0x0004) ? 1 : 0` as printed into the `empty`
telemetry field (the C code reuses the 0x0004 bit). -/
def emptyFlag (status : Nat) : Nat := if status &&& 0x0004 ≠ 0 then 1 else 0

/-- `(meter_data.status & 0x0020) ? 1 : 0` as printed into the `lowBattery`
telemetry field. -/
def lowBatteryFlag (status : Nat) : Nat :=
  if status &&& 0x0020 ≠ 0 then 1 else 0

/-- The key/value pairs of the telemetry JSON payload built by
`send_telemetry`, in the order written by its `snprintf`. -/
def telemetryPayload (m : MeterData) : List (String × Nat) :=
  [("flowRate", m.flow_rate), ("forwardTotal", m.forward_total),
    ("reverseTotal", m.reverse_total), ("pressure", m.pressure),
    ("temperature", m.temperature), ("status", m.status),
    ("leak", leakFlag m.status), ("empty", emptyFlag m.status),
    ("lowBattery", lowBatteryFlag m.status)]

/-- `send_telemetry` from main.c (lines 507-562): return `-ENOTCONN` when
MQTT is not connected, `-EINVAL` when the reading is invalid, otherwise
publish the telemetry payload. -/
def send_telemetry (mqttConnected : Bool) (m : MeterData) :
    Except PubError (List (String × Nat)) :=
  if !mqttConnected then .error .notConnected
  else if !m.valid then .error .invalidData
  else .ok (telemetryPayload m)

/-- The console status summary printed by main (lines 722-725). -/
def statusSummary (status : Nat) : String :=
  if status = 0 then "(Normal)"
  else if status &&& 0x0004 ≠ 0 then "(Empty!)"
  else if status &&& 0x0020 ≠ 0 then "(Low Battery!)"
  else ""

/-- The baud-code resolution switch in `send_attributes`. -/
def baud_str : Nat → String
  | 0 => "9600"
  | 1 => "2400"
  | 2 => "4800"
  | 3 => "1200"
  | _ + 4 => "unknown"

/-- A JSON value of the attributes payload (string or integer valued). -/
inductive JVal where
  | s (v : String)
  | n (v : Nat)
deriving DecidableEq

/-- One hex digit, uppercase, as produced by printf %X. -/
def hexDigit (n : Nat) : Char :=
  if n < 10 then Char.ofNat (48 + n) else Char.ofNat (55 + n)

/-- `%08X` rendering of a 32-bit value (uppercase, zero-padded to 8 digits)
as `snprintf` does for the serial number. -/
def hex8 (n : Nat) : String :=
  String.mk ((List.range 8).map (fun i => hexDigit ((n >>> (28 - 4 * i)) &&& 15)))

/-- The key/value pairs of the attributes payload built by
`send_attributes` (main.c lines 581-592), in `snprintf` order. -/
def attributesPayload (m : MeterData) : List (String × JVal) :=
  [("firmwareVersion", .s "2.0.0"),
    ("deviceModel", .s "BOVE-Modbus-Meter"),
    ("serialNumber", .s (hex8 m.serial_number)),
    ("modbusId", .n m.modbus_id),
    ("baudRate", .s (baud_str m.baud_code))]

/-- The attributes-once gate of the main loop (lines 728-733): inside the
successful-read branch, `send_attributes` runs iff the static `attrs_sent`
flag is still false and MQTT is connected, and then the flag is set (and
never reset).  `attrsRun s cycles` counts how many times `send_attributes`
runs over a sequence of cycles, each cycle given as
(read-succeeded-and-valid, mqtt-connected), starting from flag state `s`. -/
def attrsRun : Bool → List (Bool × Bool) → Nat
  | _, [] => 0
  | s, (rv, mc) :: rest =>
    if rv && !s && mc then 1 + attrsRun true rest
    else attrsRun s rest

/-- The asynchronous connectivity events delivered to `wifi_event_handler`,
`ipv4_event_handler` and `mqtt_evt_handler`. -/
inductive Ev where
  | wifiConnectResult (status : Int)
  | wifiDisconnect
  | ipv4Added
  | connack (result : Int)
  | mqttDisconnect
  | puback
deriving DecidableEq

/-- The connectivity flags owned by the handlers: the `wifi_connected` and
`ipv4_obtained` semaphores (as booleans: given vs. reset) and the shared
`mqtt_connected` flag. -/
structure SupState where
  wifiUp : Bool
  ipv4Up : Bool
  mqttConnected : Bool
deriving DecidableEq

/-- Process start: both semaphores empty, `mqtt_connected = false`. -/
def initSup : SupState :=
  { wifiUp := false, ipv4Up := false, mqttConnected := false }

/-- Combined event step of `wifi_event_handler` (main.c 272-289),
`ipv4_event_handler` (291-298) and `mqtt_evt_handler` (405-428). -/
def supStep (st : SupState) : Ev → SupState
  | .wifiConnectResult status =>
    if status = 0 then { st with wifiUp := true } else st
  | .wifiDisconnect =>
    { st with wifiUp := false, ipv4Up := false, mqttConnected := false }
  | .ipv4Added => { st with ipv4Up := true }
  | .connack result =>
    if result = 0 then { st with mqttConnected := true }
    else { st with mqttConnected := false }
  | .mqttDisconnect => { st with mqttConnected := false }
  | .puback => st

/-- Run the handlers over an event trace from a given state. -/
def supRunFrom (st : SupState) (tr : List Ev) : SupState := tr.foldl supStep st

/-- Run the handlers over an event trace from process start. -/
def supRun (tr : List Ev) : SupState := supRunFrom initSup tr

/-- Transport-layering assumption on a trace: a CONNACK can only be
delivered while the WiFi link is up, because `mqtt_input` reads it from a
TCP socket that exists only over the connected link. -/
def connackOnlyWhenUp : SupState → List Ev → Bool
  | _, [] => true
  | st, ev :: rest =>
    (match ev with
      | .connack _ => st.wifiUp
      | _ => true) && connackOnlyWhenUp (supStep st ev) rest

/-- Events whose handler branch forces `mqtt_connected` to false: WiFi
disconnect, MQTT disconnect, and a refused CONNACK. -/
def sessionDropEv : Ev → Bool
  | .wifiDisconnect => true
  | .mqttDisconnect => true
  | .connack result => if result = 0 then false else true
  | _ => false

/-- Outcome of one WiFi bring-up attempt as seen by `wifi_connect`: the
connect request itself fails, the `wifi_connected` semaphore times out, the
`ipv4_obtained` semaphore times out, or full success. -/
inductive WifiOutcome where
  | requestFail
  | connectTimeout
  | ipv4Timeout
  | success
deriving DecidableEq

/-- Observable actions of the two bring-up retry loops. -/
inductive RetryAct where
  | attempt (n : Nat)
  | sleepMs (ms : Nat)
  | waitedMs (ms : Nat)
  | teardown
deriving DecidableEq

/-- `max_retries` in `wifi_connect`. -/
def maxWifiRetries : Nat := 10

/-- The retry loop of `wifi_connect` (main.c 334-372): every failed attempt
(request failure or either semaphore timeout) sleeps 5 s and retries, up to
`maxWifiRetries` attempts; success returns immediately.  Result: (connected,
action trace). -/
def wifiLoop (env : Nat → WifiOutcome) : Nat → Nat → Bool × List RetryAct
  | 0, _ => (false, [])
  | fuel + 1, retry =>
    match env retry with
    | .success => (true, [.attempt retry])
    | _ =>
      let rest := wifiLoop env fuel (retry + 1)
      (rest.1, .attempt retry :: .sleepMs 5000 :: rest.2)

/-- `wifi_connect` as a whole: run the retry loop from attempt 0. -/
def wifi_connect (env : Nat → WifiOutcome) : Bool × List RetryAct :=
  wifiLoop env maxWifiRetries 0

/-- The CONNACK polling loop inside one `thingsboard_connect` attempt:
a 5000 ms budget consumed in 500 ms slices (`timeout -= 500`); returns
(session established, ms consumed from the budget). -/
def tbWait (connacked : Bool) : Nat → Bool × Nat
  | 0 => (false, 0)
  | slices + 1 =>
    if connacked then (true, 0)
    else
      let rest := tbWait connacked slices
      (rest.1, 500 + rest.2)

/-- The retry loop of `thingsboard_connect` (main.c 465-505): up to 5
attempts; a failed attempt exhausts its 5 s poll budget, tears the half-open
session down (`mqtt_disconnect`) and sleeps 2 s before the next try. -/
def tbLoop (env : Nat → Bool) : Nat → Nat → Bool × List RetryAct
  | 0, _ => (false, [])
  | fuel + 1, retry =>
    let w := tbWait (env retry) 10
    if w.1 then (true, [.attempt retry, .waitedMs w.2])
    else
      let rest := tbLoop env fuel (retry + 1)
      (rest.1,
        .attempt retry :: .waitedMs w.2 :: .teardown :: .sleepMs 2000 ::
          rest.2)

/-- `thingsboard_connect` as a whole: at most 5 attempts from attempt 0. -/
def thingsboard_connect (env : Nat → Bool) : Bool × List RetryAct :=
  tbLoop env 5 0

/-- What one main-loop iteration did. -/
structure CycleResult where
  polled : Bool
  published : Bool
deriving DecidableEq

/-- Essentials of one main-loop body iteration (main.c 704-745): the meter
is polled unconditionally; telemetry is attempted only when the read
succeeded with a valid record and `mqtt_connected` holds. -/
def mainCycle (mqttConnected readOk : Bool) (m : MeterData) : CycleResult :=
  if readOk && m.valid then
    { polled := true,
      published := mqttConnected &&
        (match send_telemetry mqttConnected m with
          | .ok _ => true
          | .error _ => false) }
  else { polled := true, published := false }

/-- Transceiver receive-loop state: `elapsed` ms since loop start (`start`),
`lastByte` the timestamp of the most recent byte (`last_byte`, initially the
loop start), the accumulated buffer, and a ghost flag recording whether a
store was ever attempted at an index ≥ MODBUS_RX_BUFFER (256). -/
structure RxState where
  elapsed : Nat
  lastByte : Nat
  buf : List Nat
  overrun : Bool
deriving DecidableEq

/-- State at loop entry. -/
def rxInit : RxState :=
  { elapsed := 0, lastByte := 0, buf := [], overrun := false }

/-- The store action `rx_buf[rx_len++] = c; last_byte = now` of the receive
loop (main.c 209-210), collapsed to the single per-iteration timestamp
`elapsed`; the ghost overrun flag records a store at index ≥ 256. -/
def rxStore (c : Nat) (s : RxState) : RxState :=
  { s with
    buf := s.buf ++ [c]
    lastByte := s.elapsed
    overrun := s.overrun || decide (256 ≤ s.buf.length) }

/-- The branch structure of one iteration: store on a successful poll (the
ghost overrun flag flips if the store index `rx_len` is not below 256),
then the full-buffer break, then the inter-byte-gap break, else sleep. -/
def rxStep (c? : Option Nat) (s : RxState) : RxState × Bool :=
  match c? with
  | some c =>
    if 256 ≤ (rxStore c s).buf.length then (rxStore c s, true)
    else if 3 < (rxStore c s).buf.length ∧
        150 < (rxStore c s).elapsed - (rxStore c s).lastByte then
      (rxStore c s, true)
    else ({ rxStore c s with elapsed := (rxStore c s).elapsed + 5 }, false)
  | none =>
    if 3 < s.buf.length ∧ 150 < s.elapsed - s.lastByte then (s, true)
    else ({ s with elapsed := s.elapsed + 5 }, false)

/-- The receive polling loop: iterate `rxStep` while `elapsed < 2000` and no
break occurred, feeding the iteration index to the environment; `fuel`
bounds the recursion. -/
def rxLoopAux (env : Nat → Option Nat) : Nat → Nat → RxState → RxState
  | 0, _, s => s
  | fuel + 1, n, s =>
    if s.elapsed < 2000 then
      let p := rxStep (env n) s
      if p.2 then p.1 else rxLoopAux env fuel (n + 1) p.1
    else s

/-- The receive loop of `read_meter_data`: fuel 400 suffices because every
continuing iteration advances `elapsed` by 5 ms, so the 2000 ms deadline
check fails after at most 400 iterations. -/
def rxRun (env : Nat → Option Nat) : RxState := rxLoopAux env 400 0 rxInit

/-- Loop-top invariant of the receive loop. -/
def RxInv (s : RxState) : Prop :=
  s.lastByte ≤ s.elapsed ∧
  (3 < s.buf.length → s.elapsed ≤ s.lastByte + 155) ∧
  s.buf.length ≤ 255 ∧ s.overrun = false

/- ======================================================================
   Helper lemmas
   ====================================================================== -/

theorem shiftLeft_lor_distrib (a b n : Nat) :
    (a ||| b) <<< n = (a <<< n) ||| (b <<< n) := by
  apply Nat.eq_of_testBit_eq
  intro i
  simp [Nat.testBit_shiftLeft, Nat.testBit_or, Bool.and_or_distrib_left]

theorem rxStore_buf_length (c : Nat) (s : RxState) :
    (rxStore c s).buf.length = s.buf.length + 1 := by
  simp [rxStore]

theorem rxStep_none_break1 (s : RxState)
    (h : 3 < s.buf.length ∧ 150 < s.elapsed - s.lastByte) :
    (rxStep none s).1 = s := by
  simp only [rxStep]
  rw [if_pos h]

theorem rxStep_none_break2 (s : RxState)
    (h : 3 < s.buf.length ∧ 150 < s.elapsed - s.lastByte) :
    (rxStep none s).2 = true := by
  simp only [rxStep]
  rw [if_pos h]

theorem rxStep_none_cont1 (s : RxState)
    (h : ¬(3 < s.buf.length ∧ 150 < s.elapsed - s.lastByte)) :
    (rxStep none s).1 = { s with elapsed := s.elapsed + 5 } := by
  simp only [rxStep]
  rw [if_neg h]

theorem rxStep_none_cont2 (s : RxState)
    (h : ¬(3 < s.buf.length ∧ 150 < s.elapsed - s.lastByte)) :
    (rxStep none s).2 = false := by
  simp only [rxStep]
  rw [if_neg h]

theorem rxStep_some_full1 (c : Nat) (s : RxState)
    (h : 256 ≤ (rxStore c s).buf.length) :
    (rxStep (some c) s).1 = rxStore c s := by
  simp only [rxStep]
  rw [if_pos h]

theorem rxStep_some_full2 (c : Nat) (s : RxState)
    (h : 256 ≤ (rxStore c s).buf.length) :
    (rxStep (some c) s).2 = true := by
  simp only [rxStep]
  rw [if_pos h]

theorem rxStep_some_cont1 (c : Nat) (s : RxState)
    (h1 : ¬256 ≤ (rxStore c s).buf.length)
    (h2 : ¬(3 < (rxStore c s).buf.length ∧
      150 < (rxStore c s).elapsed - (rxStore c s).lastByte)) :
    (rxStep (some c) s).1 =
      { rxStore c s with elapsed := (rxStore c s).elapsed + 5 } := by
  simp only [rxStep]
  rw [if_neg h1, if_neg h2]

theorem rxStep_some_cont2 (c : Nat) (s : RxState)
    (h1 : ¬256 ≤ (rxStore c s).buf.length)
    (h2 : ¬(3 < (rxStore c s).buf.length ∧
      150 < (rxStore c s).elapsed - (rxStore c s).lastByte)) :
    (rxStep (some c) s).2 = false := by
  simp only [rxStep]
  rw [if_neg h1, if_neg h2]

theorem rxStep_continue_elapsed (c? : Option Nat) (s : RxState)
    (h : (rxStep c? s).2 = false) :
    (rxStep c? s).1.elapsed = s.elapsed + 5 := by
  cases c? with
  | none =>
    by_cases hidle : 3 < s.buf.length ∧ 150 < s.elapsed - s.lastByte
    · rw [rxStep_none_break2 s hidle] at h
      exact absurd h (by simp)
    · rw [rxStep_none_cont1 s hidle]
  | some c =>
    by_cases hfull : 256 ≤ (rxStore c s).buf.length
    · rw [rxStep_some_full2 c s hfull] at h
      exact absurd h (by simp)
    · by_cases hidle : 3 < (rxStore c s).buf.length ∧
          150 < (rxStore c s).elapsed - (rxStore c s).lastByte
      · have hb : (rxStep (some c) s).2 = true := by
          simp only [rxStep]
          rw [if_neg hfull, if_pos hidle]
        rw [hb] at h
        exact absurd h (by simp)
      · rw [rxStep_some_cont1 c s hfull hidle]
        rfl

theorem rxLoopAux_done (env : Nat → Option Nat) (fuel n : Nat) (s : RxState)
    (h : 2000 ≤ s.elapsed) : rxLoopAux env fuel n s = s := by
  cases fuel with
  | zero => rfl
  | succ f => simp [rxLoopAux, Nat.not_lt.mpr h]

theorem rxLoopAux_succ_deadline (env : Nat → Option Nat) (fuel n : Nat)
    (s : RxState) (hc : ¬s.elapsed < 2000) :
    rxLoopAux env (fuel + 1) n s = s := by
  simp only [rxLoopAux]
  rw [if_neg hc]

theorem rxLoopAux_succ_break (env : Nat → Option Nat) (fuel n : Nat)
    (s : RxState) (hc : s.elapsed < 2000)
    (hb : (rxStep (env n) s).2 = true) :
    rxLoopAux env (fuel + 1) n s = (rxStep (env n) s).1 := by
  simp only [rxLoopAux]
  rw [if_pos hc, if_pos hb]

theorem rxLoopAux_succ_cont (env : Nat → Option Nat) (fuel n : Nat)
    (s : RxState) (hc : s.elapsed < 2000)
    (hb : (rxStep (env n) s).2 = false) :
    rxLoopAux env (fuel + 1) n s =
      rxLoopAux env fuel (n + 1) (rxStep (env n) s).1 := by
  simp only [rxLoopAux]
  rw [if_pos hc, if_neg (by simp [hb])]

theorem rxLoopAux_stable (env : Nat → Option Nat) :
    ∀ (fuel g n : Nat) (s : RxState), 2000 ≤ s.elapsed + 5 * fuel →
      fuel ≤ g → rxLoopAux env g n s = rxLoopAux env fuel n s := by
  intro fuel
  induction fuel with
  | zero =>
    intro g n s h _
    have h2 : 2000 ≤ s.elapsed := by omega
    rw [rxLoopAux_done env g n s h2]
    rfl
  | succ f ih =>
    intro g n s h hg
    obtain ⟨g2, rfl⟩ : ∃ g2, g = g2 + 1 := ⟨g - 1, by omega⟩
    by_cases hc : s.elapsed < 2000
    · by_cases hb : (rxStep (env n) s).2 = true
      · rw [rxLoopAux_succ_break env g2 n s hc hb,
          rxLoopAux_succ_break env f n s hc hb]
      · have hb2 : (rxStep (env n) s).2 = false := by
          simpa using hb
        rw [rxLoopAux_succ_cont env g2 n s hc hb2,
          rxLoopAux_succ_cont env f n s hc hb2]
        have he := rxStep_continue_elapsed (env n) s hb2
        apply ih
        · omega
        · omega
    · rw [rxLoopAux_succ_deadline env g2 n s hc,
        rxLoopAux_succ_deadline env f n s hc]

theorem rxLoopAux_silent (env : Nat → Option Nat) (hs : ∀ n, env n = none) :
    ∀ (fuel n : Nat) (s : RxState), (rxLoopAux env fuel n s).buf = s.buf := by
  intro fuel
  induction fuel with
  | zero => intro n s; rfl
  | succ f ih =>
    intro n s
    by_cases hc : s.elapsed < 2000
    · by_cases hidle : 3 < s.buf.length ∧ 150 < s.elapsed - s.lastByte
      · have hb : (rxStep (env n) s).2 = true := by
          rw [hs n]
          exact rxStep_none_break2 s hidle
        rw [rxLoopAux_succ_break env f n s hc hb, hs n,
          rxStep_none_break1 s hidle]
      · have hb : (rxStep (env n) s).2 = false := by
          rw [hs n]
          exact rxStep_none_cont2 s hidle
        rw [rxLoopAux_succ_cont env f n s hc hb, hs n,
          rxStep_none_cont1 s hidle, ih]
    · rw [rxLoopAux_succ_deadline env f n s hc]

theorem rxLoopAux_post (env : Nat → Option Nat) :
    ∀ (fuel n : Nat) (s : RxState), RxInv s → s.elapsed + 5 * fuel ≤ 2000 →
      (rxLoopAux env fuel n s).elapsed ≤ 2000 ∧
      (3 < (rxLoopAux env fuel n s).buf.length →
        (rxLoopAux env fuel n s).elapsed ≤
          (rxLoopAux env fuel n s).lastByte + 155) ∧
      (rxLoopAux env fuel n s).buf.length ≤ 256 ∧
      (rxLoopAux env fuel n s).overrun = false := by
  intro fuel
  induction fuel with
  | zero =>
    intro n s hinv hbud
    obtain ⟨h1, h2, h3, h4⟩ := hinv
    simp only [rxLoopAux]
    exact ⟨by omega, h2, by omega, h4⟩
  | succ f ih =>
    intro n s hinv hbud
    obtain ⟨h1, h2, h3, h4⟩ := hinv
    by_cases hc : s.elapsed < 2000
    · cases hen : env n with
      | none =>
        by_cases hidle : 3 < s.buf.length ∧ 150 < s.elapsed - s.lastByte
        · have hb : (rxStep (env n) s).2 = true := by
            rw [hen]
            exact rxStep_none_break2 s hidle
          rw [rxLoopAux_succ_break env f n s hc hb, hen,
            rxStep_none_break1 s hidle]
          exact ⟨by omega, h2, by omega, h4⟩
        · have hb : (rxStep (env n) s).2 = false := by
            rw [hen]
            exact rxStep_none_cont2 s hidle
          rw [rxLoopAux_succ_cont env f n s hc hb, hen,
            rxStep_none_cont1 s hidle]
          apply ih
          · refine ⟨?_, ?_, ?_, ?_⟩
            · show s.lastByte ≤ s.elapsed + 5
              omega
            · intro hlen
              have hlen2 : 3 < s.buf.length := hlen
              have h5 : ¬150 < s.elapsed - s.lastByte := fun hgt =>
                hidle ⟨hlen2, hgt⟩
              show s.elapsed + 5 ≤ s.lastByte + 155
              omega
            · show s.buf.length ≤ 255
              exact h3
            · show s.overrun = false
              exact h4
          · show s.elapsed + 5 + 5 * f ≤ 2000
            omega
      | some c =>
        by_cases hfull : 256 ≤ (rxStore c s).buf.length
        · have hb : (rxStep (env n) s).2 = true := by
            rw [hen]
            exact rxStep_some_full2 c s hfull
          rw [rxLoopAux_succ_break env f n s hc hb, hen,
            rxStep_some_full1 c s hfull]
          rw [rxStore_buf_length c s] at hfull
          refine ⟨?_, ?_, ?_, ?_⟩
          · show s.elapsed ≤ 2000
            omega
          · intro _
            show s.elapsed ≤ s.elapsed + 155
            omega
          · show (rxStore c s).buf.length ≤ 256
            rw [rxStore_buf_length c s]
            omega
          · show (s.overrun || decide (256 ≤ s.buf.length)) = false
            rw [h4]
            simp only [Bool.false_or, decide_eq_false_iff_not]
            omega
        · by_cases hidle : 3 < (rxStore c s).buf.length ∧
              150 < (rxStore c s).elapsed - (rxStore c s).lastByte
          · have hgap : (rxStore c s).elapsed - (rxStore c s).lastByte = 0 := by
              show s.elapsed - s.elapsed = 0
              omega
            omega
          · have hb : (rxStep (env n) s).2 = false := by
              rw [hen]
              exact rxStep_some_cont2 c s hfull hidle
            rw [rxLoopAux_succ_cont env f n s hc hb, hen,
              rxStep_some_cont1 c s hfull hidle]
            rw [rxStore_buf_length c s] at hfull
            apply ih
            · refine ⟨?_, ?_, ?_, ?_⟩
              · show s.elapsed ≤ s.elapsed + 5
                omega
              · intro _
                show s.elapsed + 5 ≤ s.elapsed + 155
                omega
              · show (rxStore c s).buf.length ≤ 255
                rw [rxStore_buf_length c s]
                omega
              · show (s.overrun || decide (256 ≤ s.buf.length)) = false
                rw [h4]
                simp only [Bool.false_or, decide_eq_false_iff_not]
                omega
            · show s.elapsed + 5 + 5 * f ≤ 2000
              omega
    · rw [rxLoopAux_succ_deadline env f n s hc]
      exact ⟨by omega, h2, by omega, h4⟩

theorem supRunFrom_append (st : SupState) (a b : List Ev) :
    supRunFrom st (a ++ b) = supRunFrom (supRunFrom st a) b :=
  List.foldl_append supStep st a b

theorem supRun_concat (tr : List Ev) (ev : Ev) :
    supRun (tr ++ [ev]) = supStep (supRun tr) ev := by
  simp [supRun, supRunFrom_append, supRunFrom]

theorem connackOnlyWhenUp_append (a : List Ev) :
    ∀ (st : SupState) (b : List Ev),
      connackOnlyWhenUp st (a ++ b) =
        (connackOnlyWhenUp st a && connackOnlyWhenUp (supRunFrom st a) b) := by
  induction a with
  | nil =>
    intro st b
    simp [connackOnlyWhenUp, supRunFrom]
  | cons ev rest ih =>
    intro st b
    have key := ih (supStep st ev) b
    cases ev <;>
      simp only [List.cons_append, connackOnlyWhenUp, List.append_eq] <;>
      rw [key] <;>
      exact (Bool.and_assoc _ _ _).symm

theorem wifiUp_since_connect (tr : List Ev) :
    (supRun tr).wifiUp = true →
    ∃ p s, tr = p ++ .wifiConnectResult 0 :: s ∧ .wifiDisconnect ∉ s := by
  induction tr using List.reverseRecOn with
  | nil =>
    intro h
    simp [supRun, supRunFrom, initSup] at h
  | append_singleton tr ev ih =>
    intro h
    rw [supRun_concat] at h
    have extend :
        (supRun tr).wifiUp = true → ev ≠ .wifiDisconnect →
        ∃ p s, tr ++ [ev] = p ++ .wifiConnectResult 0 :: s ∧
          .wifiDisconnect ∉ s := by
      intro hup hne
      obtain ⟨p, s, hps, hmem⟩ := ih hup
      refine ⟨p, s ++ [ev], by rw [hps]; simp, ?_⟩
      intro hin
      rcases List.mem_append.mp hin with h1 | h1
      · exact hmem h1
      · simp at h1
        exact hne h1.symm
    cases ev with
    | wifiConnectResult status =>
      by_cases hs : status = 0
      · subst hs
        exact ⟨tr, [], rfl, by simp⟩
      · simp [supStep, hs] at h
        exact extend h (by simp)
    | wifiDisconnect => simp [supStep] at h
    | ipv4Added =>
      simp [supStep] at h
      exact extend h (by simp)
    | connack result =>
      by_cases hr : result = 0 <;> simp [supStep, hr] at h <;>
        exact extend h (by simp)
    | mqttDisconnect =>
      simp [supStep] at h
      exact extend h (by simp)
    | puback =>
      simp [supStep] at h
      exact extend h (by simp)

theorem mqtt_since_connack (tr : List Ev) :
    (supRun tr).mqttConnected = true →
    ∃ p s, tr = p ++ .connack 0 :: s ∧ ∀ ev ∈ s, sessionDropEv ev = false := by
  induction tr using List.reverseRecOn with
  | nil =>
    intro h
    simp [supRun, supRunFrom, initSup] at h
  | append_singleton tr ev ih =>
    intro h
    rw [supRun_concat] at h
    have extend :
        (supRun tr).mqttConnected = true → sessionDropEv ev = false →
        ∃ p s, tr ++ [ev] = p ++ .connack 0 :: s ∧
          ∀ e ∈ s, sessionDropEv e = false := by
      intro hup hdrop
      obtain ⟨p, s, hps, hmem⟩ := ih hup
      refine ⟨p, s ++ [ev], by rw [hps]; simp, ?_⟩
      intro e he
      rcases List.mem_append.mp he with h1 | h1
      · exact hmem e h1
      · simp at h1
        rw [h1]
        exact hdrop
    cases ev with
    | connack result =>
      by_cases hr : result = 0
      · subst hr
        exact ⟨tr, [], rfl, by simp⟩
      · simp [supStep, hr] at h
    | wifiDisconnect => simp [supStep] at h
    | mqttDisconnect => simp [supStep] at h
    | wifiConnectResult status =>
      by_cases hs : status = 0 <;> simp [supStep, hs] at h <;>
        exact extend h rfl
    | ipv4Added =>
      simp [supStep] at h
      exact extend h rfl
    | puback =>
      simp [supStep] at h
      exact extend h rfl

theorem attrsRun_true_eq_zero (cycles : List (Bool × Bool)) :
    attrsRun true cycles = 0 := by
  induction cycles with
  | nil => rfl
  | cons c rest ih =>
    obtain ⟨rv, mc⟩ := c
    simp [attrsRun, ih]

theorem attrsRun_false_le_one (cycles : List (Bool × Bool)) :
    attrsRun false cycles ≤ 1 := by
  induction cycles with
  | nil => simp [attrsRun]
  | cons c rest ih =>
    obtain ⟨rv, mc⟩ := c
    simp only [attrsRun, attrsRun_true_eq_zero]
    split_ifs with h
    · omega
    · exact ih

theorem crcBits_eq_iterate (n : Nat) : ∀ c, crcBits n c = crcBit^[n] c := by
  induction n with
  | zero => intro c; rfl
  | succ n ih =>
    intro c
    rw [crcBits, ih, Function.iterate_succ_apply]

theorem modbus_crc16_eq_specCrc16 : modbus_crc16 = specCrc16 := by
  funext bytes
  have h : (fun (crc b : Nat) => crcBits 8 (crc ^^^ b)) =
      fun (crc b : Nat) => crcBit^[8] (crc ^^^ b) := by
    funext crc b
    exact crcBits_eq_iterate 8 (crc ^^^ b)
  unfold modbus_crc16 specCrc16
  rw [h]

/- ======================================================================
   Claim theorems
   ====================================================================== -/

/-- C5: for every device address, `build_read_cmd` returns exactly the 8-byte
frame `[address, 0x03, 0x00, 0x01, 0x00, 0x26, crc_lo, crc_hi]` where the two
trailer bytes are the low and high bytes of the CRC of the first six bytes,
and the CRC function is exactly the spec-described Modbus CRC (initial value
0xFFFF, reflected polynomial 0xA001, 8 bit-iterations per input byte). -/
theorem c5_build_read_request_frame (id : Nat) :
    build_read_cmd id =
      [id, 0x03, 0x00, 0x01, 0x00, 0x26,
        specCrc16 [id, 0x03, 0x00, 0x01, 0x00, 0x26] &&& 0xFF,
        (specCrc16 [id, 0x03, 0x00, 0x01, 0x00, 0x26] >>> 8) &&& 0xFF] ∧
    modbus_crc16 = specCrc16 := by
  refine ⟨?_, modbus_crc16_eq_specCrc16⟩
  simp [build_read_cmd, modbus_crc16_eq_specCrc16]

/-- C1 counterexample: the claim derives the 70-byte threshold as
3-byte header + 2*38 data bytes + 2-byte CRC, which equals 81, not 70.  A
75-byte all-zero frame is below that derived minimum, yet validation does
not fail with `TooShort` (it reaches the CRC check instead). -/
theorem c1_counterexample :
    validate_response (List.replicate 75 0) 1 ≠ .error .tooShort ∧
    (List.replicate 75 0).length = 75 ∧ 75 < 3 + 2 * 38 + 2 := by
  refine ⟨?_, by decide, by decide⟩
  unfold validate_response
  split_ifs <;> simp_all

/-- C1 (amended): validation fails with `TooShort` iff the length is below
the bare constant 70 (which is not the derived full-frame minimum 81); with
`CrcMismatch` iff, the length check passing, the trailing two bytes read
low-byte-first differ from `modbus_crc16` of the preceding bytes; with
`AddressMismatch` iff, additionally the CRC matching, byte 0 differs from
the expected address; with `FunctionMismatch` iff, additionally byte 0
matching, byte 1 differs from 0x03; and on success the payload is the frame
from byte 3 on. -/
theorem c1_validate_response_characterization (rx : List Nat) (addr : Nat) :
    (validate_response rx addr = .error .tooShort ↔ rx.length < 70) ∧
    (70 ≤ rx.length →
      (validate_response rx addr = .error .crcMismatch ↔
        recvCrc rx ≠ modbus_crc16 (rx.take (rx.length - 2)))) ∧
    (70 ≤ rx.length → recvCrc rx = modbus_crc16 (rx.take (rx.length - 2)) →
      (validate_response rx addr = .error .addrMismatch ↔
        rx.getD 0 0 ≠ addr)) ∧
    (70 ≤ rx.length → recvCrc rx = modbus_crc16 (rx.take (rx.length - 2)) →
      rx.getD 0 0 = addr →
      (validate_response rx addr = .error .funcMismatch ↔
        rx.getD 1 0 ≠ 0x03)) ∧
    (∀ p, validate_response rx addr = .ok p → p = rx.drop 3) := by
  unfold validate_response
  split_ifs with h1 h2 h3 h4 <;> simp_all

/-- C1 witness: a 10-byte frame is rejected as too short. -/
theorem c1_validate_response_characterization_witness :
    validate_response (List.replicate 10 0) 1 = .error .tooShort :=
  (c1_validate_response_characterization (List.replicate 10 0) 1).1.mpr
    (by decide)

/-- C2 counterexample: the claim's combination rule (register pair's second
word holds the lower 16 bits) is false for the flow field: on payload
`[1, 2, 3, 4]` the code produces `(0x0304 << 16) ||| 0x0102`, not the
claimed `(0x0102 << 16) ||| 0x0304`. -/
theorem c2_counterexample :
    (decodePayload [1, 2, 3, 4]).flow_rate ≠ claimedU32 [1, 2, 3, 4] 0 := by
  decide

/-- C2 (amended): the decoder extracts exactly the claimed fields at the
claimed payload offsets, and always yields a populated reading marked valid;
but the 32-bit combination differs from the claim: flow, forward-total and
reverse-total are combined as `(second_word << 16) ||| first_word` (the
pair's FIRST word holds the lower 16 bits), while the serial number is a
plain big-endian 32-bit read, `(first_word << 16) ||| second_word`. -/
theorem c2_register_decoder_fields (d : List Nat) :
    (decodePayload d).flow_rate = (word16 d 2 <<< 16) ||| word16 d 0 ∧
    (decodePayload d).forward_total = (word16 d 14 <<< 16) ||| word16 d 12 ∧
    (decodePayload d).reverse_total = (word16 d 20 <<< 16) ||| word16 d 18 ∧
    (decodePayload d).pressure = word16 d 36 ∧
    (decodePayload d).status = word16 d 38 ∧
    (decodePayload d).temperature = word16 d 58 ∧
    (decodePayload d).serial_number = (word16 d 64 <<< 16) ||| word16 d 66 ∧
    (decodePayload d).modbus_id = d.getD 69 0 ∧
    (decodePayload d).baud_code = word16 d 72 ∧
    (decodePayload d).valid = true := by
  refine ⟨rfl, rfl, rfl, rfl, rfl, rfl, ?_, rfl, rfl, rfl⟩
  show (d.getD 64 0 <<< 24) ||| (d.getD 65 0 <<< 16) |||
      (d.getD 66 0 <<< 8) ||| d.getD 67 0 =
    (((d.getD 64 0 <<< 8) ||| d.getD 65 0) <<< 16) |||
      ((d.getD 66 0 <<< 8) ||| d.getD 67 0)
  rw [shiftLeft_lor_distrib, ← Nat.shiftLeft_add, Nat.or_assoc]

/-- C9: whenever validation of the received frame fails, the only change to
the meter record is that `valid` becomes false; every numeric field keeps
its previous value, and the function returns -1. -/
theorem c9_failed_validation_preserves_fields (rx : List Nat)
    (old : MeterData) (e : FrameError)
    (h : validate_response rx 1 = .error e) :
    (read_meter_data_post rx old).1 = { old with valid := false } ∧
    (read_meter_data_post rx old).1.flow_rate = old.flow_rate ∧
    (read_meter_data_post rx old).1.forward_total = old.forward_total ∧
    (read_meter_data_post rx old).1.reverse_total = old.reverse_total ∧
    (read_meter_data_post rx old).1.pressure = old.pressure ∧
    (read_meter_data_post rx old).1.temperature = old.temperature ∧
    (read_meter_data_post rx old).1.status = old.status ∧
    (read_meter_data_post rx old).1.serial_number = old.serial_number ∧
    (read_meter_data_post rx old).1.modbus_id = old.modbus_id ∧
    (read_meter_data_post rx old).1.baud_code = old.baud_code ∧
    (read_meter_data_post rx old).1.valid = false ∧
    (read_meter_data_post rx old).2 = -1 := by
  unfold read_meter_data_post
  rw [h]
  exact ⟨rfl, rfl, rfl, rfl, rfl, rfl, rfl, rfl, rfl, rfl, rfl, rfl⟩

/-- C9 witness: an empty receive buffer fails validation and only clears the
valid flag of the sample reading. -/
theorem c9_failed_validation_preserves_fields_witness :
    (read_meter_data_post [] sampleMeter).1 =
      { sampleMeter with valid := false } :=
  (c9_failed_validation_preserves_fields [] sampleMeter .tooShort rfl).1

/-- C4: `send_telemetry` short-circuits with `notConnected` when the MQTT
gate is down and with `invalidData` when the reading is invalid (no message
is produced in either case); otherwise it publishes exactly the nine claimed
fields, with leak and empty both driven by status bit 0x0004 and lowBattery
by bit 0x0020; status 0 prints the "(Normal)" summary, 0x0004 sets leak and
empty, 0x0020 sets lowBattery, and 0x0024 sets all three. -/
theorem c4_send_telemetry_gate_and_fields (mqttConnected : Bool)
    (m : MeterData) :
    (mqttConnected = false →
      send_telemetry mqttConnected m = .error .notConnected) ∧
    (mqttConnected = true → m.valid = false →
      send_telemetry mqttConnected m = .error .invalidData) ∧
    (mqttConnected = true → m.valid = true →
      send_telemetry mqttConnected m = .ok
        [("flowRate", m.flow_rate), ("forwardTotal", m.forward_total),
          ("reverseTotal", m.reverse_total), ("pressure", m.pressure),
          ("temperature", m.temperature), ("status", m.status),
          ("leak", if m.status &&& 0x0004 ≠ 0 then 1 else 0),
          ("empty", if m.status &&& 0x0004 ≠ 0 then 1 else 0),
          ("lowBattery", if m.status &&& 0x0020 ≠ 0 then 1 else 0)]) ∧
    statusSummary 0 = "(Normal)" ∧
    leakFlag 0x0004 = 1 ∧ emptyFlag 0x0004 = 1 ∧
    lowBatteryFlag 0x0020 = 1 ∧
    leakFlag 0x0024 = 1 ∧ emptyFlag 0x0024 = 1 ∧
    lowBatteryFlag 0x0024 = 1 ∧
    leakFlag 0 = 0 ∧ emptyFlag 0 = 0 ∧ lowBatteryFlag 0 = 0 := by
  refine ⟨?_, ?_, ?_, by decide, by decide, by decide, by decide, by decide,
    by decide, by decide, by decide, by decide, by decide⟩
  · intro h
    simp [send_telemetry, h]
  · intro h hv
    simp [send_telemetry, h, hv]
  · intro h hv
    simp [send_telemetry, h, hv, telemetryPayload, leakFlag, emptyFlag,
      lowBatteryFlag]

/-- C4 witness: with the gate down, the sample reading is rejected with
`notConnected`. -/
theorem c4_send_telemetry_gate_and_fields_witness :
    send_telemetry false sampleMeter = .error .notConnected :=
  (c4_send_telemetry_gate_and_fields false sampleMeter).1 rfl

/-- C8: over any sequence of main-loop cycles the attributes message is sent
at most once (the static flag is never reset, so in particular at most once
per session establishment), and the message carries exactly the five claimed
fields with the baud code resolved by 0→"9600", 1→"2400", 2→"4800",
3→"1200", anything else → "unknown". -/
theorem c8_attributes_once_and_fields :
    (∀ cycles : List (Bool × Bool), attrsRun false cycles ≤ 1) ∧
    (∀ m : MeterData, attributesPayload m =
      [("firmwareVersion", .s "2.0.0"),
        ("deviceModel", .s "BOVE-Modbus-Meter"),
        ("serialNumber", .s (hex8 m.serial_number)),
        ("modbusId", .n m.modbus_id),
        ("baudRate", .s (baud_str m.baud_code))]) ∧
    baud_str 0 = "9600" ∧ baud_str 1 = "2400" ∧ baud_str 2 = "4800" ∧
    baud_str 3 = "1200" ∧ (∀ c, 3 < c → baud_str c = "unknown") ∧
    baud_str 9 = "unknown" := by
  refine ⟨?_, fun m => rfl, rfl, rfl, rfl, rfl, ?_, rfl⟩
  · exact attrsRun_false_le_one
  · intro c hc
    obtain ⟨k, rfl⟩ : ∃ k, c = k + 4 := ⟨c - 4, by omega⟩
    rfl

/-- C3: under the transport-layering assumption that a CONNACK is only
delivered while the link is up, whenever the handlers leave
`mqtt_connected = true` the trace contains a successful CONNACK after which
no session-dropping event occurred, and a successful WiFi connect result
after which no WiFi disconnect occurred (both signals observed since the
last disconnect); moreover at the step level the flag is set true only by a
successful CONNACK (never on request-send, which is not even an event of the
handlers), and any link-down or session-disconnect event immediately forces
it to false. -/
theorem c3_ready_only_after_link_and_session_ack (tr : List Ev)
    (henv : connackOnlyWhenUp initSup tr = true) :
    ((supRun tr).mqttConnected = true →
      (∃ p s, tr = p ++ .connack 0 :: s ∧
        ∀ ev ∈ s, sessionDropEv ev = false) ∧
      (∃ p s, tr = p ++ .wifiConnectResult 0 :: s ∧
        .wifiDisconnect ∉ s)) ∧
    (∀ (st : SupState) (ev : Ev), (supStep st ev).mqttConnected = true →
      st.mqttConnected = true ∨ ev = .connack 0) ∧
    (∀ st : SupState, (supStep st .wifiDisconnect).mqttConnected = false ∧
      (supStep st .mqttDisconnect).mqttConnected = false) := by
  refine ⟨?_, ?_, ?_⟩
  · intro h
    obtain ⟨p, s, hps, hmem⟩ := mqtt_since_connack tr h
    refine ⟨⟨p, s, hps, hmem⟩, ?_⟩
    have henv2 := henv
    rw [hps] at henv2
    rw [show p ++ Ev.connack 0 :: s = p ++ (Ev.connack 0 :: s) from rfl,
      connackOnlyWhenUp_append] at henv2
    have hparts := Bool.and_eq_true_iff.mp henv2
    have htail := hparts.2
    rw [connackOnlyWhenUp] at htail
    have hup : (supRun p).wifiUp = true := (Bool.and_eq_true_iff.mp htail).1
    obtain ⟨p2, s2, hp2, hmem2⟩ := wifiUp_since_connect p hup
    refine ⟨p2, s2 ++ .connack 0 :: s, ?_, ?_⟩
    · rw [hps, hp2]
      simp
    · intro hin
      rcases List.mem_append.mp hin with h1 | h1
      · exact hmem2 h1
      · rcases List.mem_cons.mp h1 with h2 | h2
        · exact Ev.noConfusion h2
        · have hdrop := hmem _ h2
          simp [sessionDropEv] at hdrop
  · intro st ev h
    cases ev with
    | connack result =>
      by_cases hr : result = 0
      · right
        rw [hr]
      · simp [supStep, hr] at h
    | wifiConnectResult status =>
      left
      by_cases hs : status = 0 <;> simpa [supStep, hs] using h
    | wifiDisconnect => simp [supStep] at h
    | ipv4Added =>
      left
      simpa [supStep] using h
    | mqttDisconnect => simp [supStep] at h
    | puback =>
      left
      simpa [supStep] using h
  · intro st
    exact ⟨rfl, rfl⟩

/-- C3 witness: the trace link-up, address, successful CONNACK satisfies the
layering assumption, ends ready, and exhibits both required signals. -/
theorem c3_ready_only_after_link_and_session_ack_witness :
    (∃ p s, [Ev.wifiConnectResult 0, Ev.ipv4Added, Ev.connack 0] =
        p ++ .connack 0 :: s ∧ ∀ ev ∈ s, sessionDropEv ev = false) ∧
    (∃ p s, [Ev.wifiConnectResult 0, Ev.ipv4Added, Ev.connack 0] =
        p ++ .wifiConnectResult 0 :: s ∧ .wifiDisconnect ∉ s) :=
  (c3_ready_only_after_link_and_session_ack
    [Ev.wifiConnectResult 0, Ev.ipv4Added, Ev.connack 0] (by decide)).1
    (by decide)

/-- C7: on repeated connection timeouts, WiFi bring-up makes exactly its
configured 10 attempts (a value in 3..10) with a 5 s delay after each
failure, and session bring-up makes exactly 5 attempts, each exhausting its
5 s poll budget, tearing the half-open session down and sleeping 2 s before
the next try; both report failure rather than aborting, and with the gate
down every main-loop cycle still polls the meter and never publishes
(acquisition-only mode). -/
theorem c7_bounded_retries_nonfatal :
    wifi_connect (fun _ => .connectTimeout) =
      (false,
        [.attempt 0, .sleepMs 5000, .attempt 1, .sleepMs 5000,
          .attempt 2, .sleepMs 5000, .attempt 3, .sleepMs 5000,
          .attempt 4, .sleepMs 5000, .attempt 5, .sleepMs 5000,
          .attempt 6, .sleepMs 5000, .attempt 7, .sleepMs 5000,
          .attempt 8, .sleepMs 5000, .attempt 9, .sleepMs 5000]) ∧
    (3 ≤ maxWifiRetries ∧ maxWifiRetries ≤ 10) ∧
    thingsboard_connect (fun _ => false) =
      (false,
        [.attempt 0, .waitedMs 5000, .teardown, .sleepMs 2000,
          .attempt 1, .waitedMs 5000, .teardown, .sleepMs 2000,
          .attempt 2, .waitedMs 5000, .teardown, .sleepMs 2000,
          .attempt 3, .waitedMs 5000, .teardown, .sleepMs 2000,
          .attempt 4, .waitedMs 5000, .teardown, .sleepMs 2000]) ∧
    (∀ (readOk : Bool) (m : MeterData),
      (mainCycle false readOk m).polled = true ∧
      (mainCycle false readOk m).published = false) := by
  refine ⟨by decide, by decide, by decide, ?_⟩
  intro readOk m
  unfold mainCycle
  split_ifs <;> exact ⟨rfl, rfl⟩

/-- C6: for every arrival sequence the receive loop terminates within the
2000 ms deadline (any fuel beyond the 400 iterations the deadline allows
gives the same result, and the exit time never exceeds 2000 ms); once more
than 3 bytes are held the loop exits within 155 ms of the last byte (the
150 ms cutoff plus one 5 ms poll period); it stops when the 256-byte buffer
fills; and a silent line yields the empty sequence as a normal return value
(the loop's result type has no error case). -/
theorem c6_receive_loop_termination_and_cutoffs (env : Nat → Option Nat) :
    (∀ g, 400 ≤ g → rxLoopAux env g 0 rxInit = rxRun env) ∧
    (rxRun env).elapsed ≤ 2000 ∧
    (3 < (rxRun env).buf.length →
      (rxRun env).elapsed ≤ (rxRun env).lastByte + 155) ∧
    (rxRun env).buf.length ≤ 256 ∧
    ((∀ n, env n = none) → (rxRun env).buf = []) := by
  have hpost := rxLoopAux_post env 400 0 rxInit
    ⟨Nat.le.refl, fun h => absurd h (by decide), by decide, rfl⟩ (by decide)
  refine ⟨?_, hpost.1, hpost.2.1, hpost.2.2.1, ?_⟩
  · intro g hg
    exact rxLoopAux_stable env 400 g 0 rxInit (by decide) hg
  · intro hs
    exact rxLoopAux_silent env hs 400 0 rxInit

/-- C6 witness: with a silent line the loop is fuel-stable at 500 and
returns the empty buffer. -/
theorem c6_receive_loop_termination_and_cutoffs_witness :
    rxLoopAux (fun _ => none) 500 0 rxInit = rxRun (fun _ => none) ∧
    (rxRun (fun _ => none)).buf = [] :=
  ⟨(c6_receive_loop_termination_and_cutoffs (fun _ => none)).1 500 (by decide),
    (c6_receive_loop_termination_and_cutoffs (fun _ => none)).2.2.2.2
      (fun _ => rfl)⟩

/-- C10: the receive loop never stores a byte at an index ≥ 256 (the ghost
overrun flag stays false, because the loop breaks as soon as the count
reaches the buffer size), the accumulated count never exceeds 256, and the
CRC-trailer indices count-2 and count-1 used after the ≥ 70 length check are
in bounds. -/
theorem c10_receive_buffer_in_bounds (env : Nat → Option Nat) :
    (rxRun env).overrun = false ∧
    (rxRun env).buf.length ≤ 256 ∧
    (70 ≤ (rxRun env).buf.length →
      (rxRun env).buf.length - 2 < 256 ∧
        (rxRun env).buf.length - 1 < 256) := by
  have hpost := rxLoopAux_post env 400 0 rxInit
    ⟨Nat.le.refl, fun h => absurd h (by decide), by decide, rfl⟩ (by decide)
  refine ⟨hpost.2.2.2, hpost.2.2.1, ?_⟩
  intro h70
  have hlen : (rxRun env).buf.length ≤ 256 := hpost.2.2.1
  omega

/-- C10 witness: a line delivering a byte every poll fills the buffer; the
overrun flag stays false and the trailer indices are in bounds. -/
theorem c10_receive_buffer_in_bounds_witness :
    (rxRun (fun _ => some 0)).overrun = false ∧
    70 ≤ (rxRun (fun _ => some 0)).buf.length ∧
    (rxRun (fun _ => some 0)).buf.length - 2 < 256 :=
  ⟨(c10_receive_buffer_in_bounds (fun _ => some 0)).1, by decide,
    ((c10_receive_buffer_in_bounds (fun _ => some 0)).2.2 (by decide)).1⟩

/-- C8 witness: a cycle sequence with two connected valid reads sends the
attributes exactly once overall, and code 9 resolves to "unknown". -/
theorem c8_attributes_once_and_fields_witness :
    attrsRun false [(true, true), (true, true)] ≤ 1 ∧
    baud_str 9 = "unknown" :=
  ⟨c8_attributes_once_and_fields.1 [(true, true), (true, true)],
    c8_attributes_once_and_fields.2.2.2.2.2.2.1 9 (by decide)⟩

end FlowGard
